import Mathlib

/-!
Verification development for the OnlyOne print-on-demand canvas pipeline.

The definitions below are a shallow embedding of the Python sources:

* `utils/canvas_composer.py` — `CanvasComposer.calculate_position`,
  `resize_maintaining_aspect`, `apply_safe_margins`, `compose_front`,
  `compose_back`, `compose_sleeve`, `create_all_variants_for_product`;
* `utils/font_renderer.py` — `draw_curved_text`,
  `render_title_with_libre_bodoni`;
* `config_printful.py` — `CANVAS_TEMPLATES`, `LAYOUT_CONFIG`,
  `LIBRE_BODONI_FONT`, `CONTRAST_COLORS`.

Modelling conventions:

* Machine integers are `Nat`/`Int`; Python `//` on ints is floor division
  (`Int.fdiv`), `int(...)` applied to a non-negative quantity is a floor.
* Python float arithmetic is idealised as exact rational arithmetic (`ℚ`);
  `math.sin`, `math.cos` and `math.pi` are passed in as explicit parameters
  of the embedding, so every statement is quantified over them.
* Python float division raises `ZeroDivisionError` on a zero denominator;
  this is modelled by `pydiv` returning `Except`.
* The file system is a map from path strings to optionally present images;
  writing is modelled by returning the list of `(path, content)` pairs the
  call would save.  Directory creation and save-time I/O failures are not
  modelled (a save always succeeds once attempted, as in the happy path of
  the code).
* PIL raster contents: an image is its pixel dimensions plus a total pixel
  function.  The LANCZOS resampling filter's pixel arithmetic is replaced
  by a deterministic placeholder (dimension behaviour is exact, which is
  all the claims inspect); `paste` with an alpha mask is modelled as an
  overlay of the pasted pixels with nonzero alpha.
-/

namespace NewPrintful

/-- A pixel colour, as an RGBA quadruple. -/
abbrev RGBA := Nat × Nat × Nat × Nat

/-- A raster image: pixel dimensions plus a pixel function
(PIL `Image` as far as the composer observes it). -/
structure Image where
  width : Nat
  height : Nat
  pix : Nat → Nat → RGBA

/-- `Image.new('RGBA', (w, h), (255, 255, 255, 0))`: a transparent canvas. -/
def Image.blank (w h : Nat) : Image :=
  ⟨w, h, fun _ _ => (255, 255, 255, 0)⟩

/-- `image.resize((w, h), Image.Resampling.LANCZOS)`.  The target dimensions
are exact; the resampled pixel values are a deterministic placeholder (the
claims never inspect resampled pixel arithmetic, only dimensions and
determinism). -/
def Image.resize (img : Image) (w h : Nat) : Image :=
  ⟨w, h, fun x y => img.pix (x * img.width / w) (y * img.height / h)⟩

/-- `base.paste(img, (x, y), img)`: paste with the image itself as alpha
mask, modelled as overlaying the pasted pixels whose alpha is nonzero.
The base dimensions are unchanged. -/
def Image.paste (base : Image) (img : Image) (pos : Int × Int) : Image :=
  ⟨base.width, base.height, fun x y =>
    let dx : Int := (x : Int) - pos.1
    let dy : Int := (y : Int) - pos.2
    if 0 ≤ dx ∧ dx < (img.width : Int) ∧ 0 ≤ dy ∧ dy < (img.height : Int)
        ∧ (img.pix dx.toNat dy.toNat).2.2.2 ≠ 0 then
      img.pix dx.toNat dy.toNat
    else
      base.pix x y⟩

/-- A canvas template from `config_printful.CANVAS_TEMPLATES`. -/
structure CanvasTemplate where
  width : Nat
  height : Nat
  dpi : Nat
  safe_margin : Nat
deriving DecidableEq

/-- `CANVAS_TEMPLATES['main']`: 12x16 inches at 300 DPI. -/
def CANVAS_TEMPLATES_main : CanvasTemplate := ⟨3600, 4800, 300, 75⟩

/-- `CANVAS_TEMPLATES['sleeve']`: 3x14 inches at 300 DPI. -/
def CANVAS_TEMPLATES_sleeve : CanvasTemplate := ⟨900, 4200, 300, 75⟩

/-- A layout rule from `config_printful.LAYOUT_CONFIG`: the Python dicts
may or may not carry each key, modelled with `Option`. -/
structure LayoutRule where
  width_percent : Option Nat := none
  height_percent : Option Nat := none
  top_percent : Option Nat := none
deriving DecidableEq

/-- `LAYOUT_CONFIG['front']['main_image']`. -/
def front_main_image_rule : LayoutRule :=
  { width_percent := some 45, top_percent := some 20 }

/-- `LAYOUT_CONFIG['front']['title']`. -/
def front_title_rule : LayoutRule :=
  { width_percent := some 60, top_percent := some 55 }

/-- `LAYOUT_CONFIG['front']['wordmark']`. -/
def front_wordmark_rule : LayoutRule :=
  { width_percent := some 25, top_percent := some 75 }

/-- `LAYOUT_CONFIG['back']['main_image']`. -/
def back_main_image_rule : LayoutRule :=
  { width_percent := some 80, top_percent := some 50 }

/-- `LAYOUT_CONFIG['sleeve']['logo']`. -/
def sleeve_logo_rule : LayoutRule :=
  { height_percent := some 25, top_percent := some 50 }

/-- `CanvasComposer.calculate_position`: vertical position from
`top_percent` when present, else vertical centring by floor division;
horizontal centring for the `'center'` alignment (the only one the
workflow uses), 10%-offset placement for `'left'`/`'right'`.
Python `//` on a possibly negative difference floors, hence `Int.fdiv`. -/
def calculate_position (canvas_size : Nat × Nat) (element_size : Nat × Nat)
    (position_config : LayoutRule) (alignment : String := "center") : Int × Int :=
  let canvas_w := canvas_size.1
  let canvas_h := canvas_size.2
  let elem_w := element_size.1
  let elem_h := element_size.2
  let y : Int :=
    match position_config.top_percent with
    | some tp => (canvas_h * tp / 100 : Nat)
    | none => Int.fdiv ((canvas_h : Int) - (elem_h : Int)) 2
  let x : Int :=
    if alignment = "center" then Int.fdiv ((canvas_w : Int) - (elem_w : Int)) 2
    else if alignment = "left" then (canvas_w / 10 : Nat)
    else if alignment = "right" then ((canvas_w * 9 / 10 : Nat) : Int) - (elem_w : Int)
    else Int.fdiv ((canvas_w : Int) - (elem_w : Int)) 2
  (x, y)

/-- `CanvasComposer.resize_maintaining_aspect`: a `width_percent` rule
fixes the target width as `int(canvas_w * percent / 100)` and derives the
height from the aspect ratio, `int(target_width * (h / w))`; an (exclusive)
`height_percent` rule is symmetric; with neither key the image is returned
unchanged.  All quantities are non-negative, so Python's `int(...)`
truncation coincides with `Nat` floor division. -/
def resize_maintaining_aspect (image : Image) (target_config : LayoutRule)
    (canvas_size : Nat × Nat) : Image :=
  match target_config.width_percent with
  | some wp =>
      let target_width := canvas_size.1 * wp / 100
      let target_height := target_width * image.height / image.width
      image.resize target_width target_height
  | none =>
      match target_config.height_percent with
      | some hp =>
          let target_height := canvas_size.2 * hp / 100
          let target_width := target_height * image.width / image.height
          image.resize target_width target_height
      | none => image

/-- `CanvasComposer.apply_safe_margins`:
`x = max(margin, min(x, canvas_w - elem_w - margin))` and likewise for `y`. -/
def apply_safe_margins (position : Int × Int) (element_size : Nat × Nat)
    (canvas_size : Nat × Nat) (margin : Int := 75) : Int × Int :=
  let x := max margin (min position.1 ((canvas_size.1 : Int) - (element_size.1 : Int) - margin))
  let y := max margin (min position.2 ((canvas_size.2 : Int) - (element_size.2 : Int) - margin))
  (x, y)

/-- The file system as the composer observes it: `fs p = some img` when
`os.path.exists(p)` holds and `Image.open(p).convert('RGBA')` decodes to
`img`; `fs p = none` when the path is missing (or unreadable, which the
code's `try`/`except` treats the same way at the composition level). -/
def FS := String → Option Image

/-- The outcome of one `compose_*` call: the returned boolean and the
`(output_path, content)` pair saved by `canvas.save(...)`, when reached. -/
structure ComposeResult where
  success : Bool
  written : Option (String × Image)

/-- One layer block of `compose_front` / `compose_back` / `compose_sleeve`:
resize per the rule, `calculate_position`, `apply_safe_margins`, then
paste onto the canvas. -/
def place_element (canvas : Image) (img : Image) (rule : LayoutRule)
    (canvas_size : Nat × Nat) (safe_margin : Nat) : Image :=
  let resized := resize_maintaining_aspect img rule canvas_size
  let pos := calculate_position canvas_size (resized.width, resized.height) rule "center"
  let pos := apply_safe_margins pos (resized.width, resized.height) canvas_size (safe_margin : Int)
  canvas.paste resized pos

/-- `CanvasComposer.compose_front`: a transparent `main`-template canvas;
artwork, curved title and wordmark are each pasted when their file exists
and silently skipped otherwise; the canvas is saved and `True` returned
regardless of how many layers were placed. -/
def compose_front (fs : FS) (main_image_path title_image_path wordmark_image_path
    output_path : String) : ComposeResult :=
  let template := CANVAS_TEMPLATES_main
  let canvas_size := (template.width, template.height)
  let safe_margin := template.safe_margin
  let canvas := Image.blank canvas_size.1 canvas_size.2
  let canvas :=
    match fs main_image_path with
    | some img => place_element canvas img front_main_image_rule canvas_size safe_margin
    | none => canvas
  let canvas :=
    match fs title_image_path with
    | some img => place_element canvas img front_title_rule canvas_size safe_margin
    | none => canvas
  let canvas :=
    match fs wordmark_image_path with
    | some img => place_element canvas img front_wordmark_rule canvas_size safe_margin
    | none => canvas
  ⟨true, some (output_path, canvas)⟩

/-- `CanvasComposer.compose_back`: single large centred artwork on a
`main`-template canvas; a missing artwork returns `False` before any save. -/
def compose_back (fs : FS) (main_image_path output_path : String) : ComposeResult :=
  let template := CANVAS_TEMPLATES_main
  let canvas_size := (template.width, template.height)
  let safe_margin := template.safe_margin
  let canvas := Image.blank canvas_size.1 canvas_size.2
  match fs main_image_path with
  | some img =>
      ⟨true, some (output_path, place_element canvas img back_main_image_rule canvas_size safe_margin)⟩
  | none => ⟨false, none⟩

/-- `CanvasComposer.compose_sleeve`: single centred logo on a
`sleeve`-template canvas; a missing logo returns `False` before any save. -/
def compose_sleeve (fs : FS) (logo_image_path output_path : String) : ComposeResult :=
  let template := CANVAS_TEMPLATES_sleeve
  let canvas_size := (template.width, template.height)
  let safe_margin := template.safe_margin
  let canvas := Image.blank canvas_size.1 canvas_size.2
  match fs logo_image_path with
  | some img =>
      ⟨true, some (output_path, place_element canvas img sleeve_logo_rule canvas_size safe_margin)⟩
  | none => ⟨false, none⟩

/-- The `asset_urls` dictionary handed to
`create_all_variants_for_product`: each key may be absent (`none`). -/
structure AssetUrls where
  title_dark : Option String := none
  title_light : Option String := none
  wordmark_dark : Option String := none
  wordmark_light : Option String := none
  logo_dark : Option String := none
  logo_light : Option String := none

/-- Python truthiness of `asset_urls.get(key)`: `None` and the empty
string are falsy, any other string is truthy. -/
def truthy : Option String → Bool
  | none => false
  | some s => !(s == "")

/-- `os.path.join` on the two-argument calls the composer makes. -/
def pathJoin (a b : String) : String := a ++ "/" ++ b

/-- `CanvasComposer.create_all_variants_for_product`: attempts the five
compositions in source order (front_light, front_dark, back, sleeve_dark,
sleeve_light), each guarded by the truthiness of its own asset entries,
records the output path in the results dict only when the composition
returned `True`, and returns the dict (insertion order
front_light, front_dark, back, sleeve_light, sleeve_dark) together with
the files written, in write order. -/
def create_all_variants_for_product (fs : FS) (slug : String)
    (main_image_path : String) (asset_urls : AssetUrls)
    (output_dir : String := "artifacts") :
    List (String × Option String) × List (String × Image) :=
  let product_dir := pathJoin output_dir slug
  let front_light :=
    if truthy asset_urls.title_dark && truthy asset_urls.wordmark_dark then
      let p := pathJoin product_dir (slug ++ "_front_light.png")
      let r := compose_front fs main_image_path (asset_urls.title_dark.getD "")
        (asset_urls.wordmark_dark.getD "") p
      ((if r.success then some p else none), r.written.toList)
    else (none, [])
  let front_dark :=
    if truthy asset_urls.title_light && truthy asset_urls.wordmark_light then
      let p := pathJoin product_dir (slug ++ "_front_dark.png")
      let r := compose_front fs main_image_path (asset_urls.title_light.getD "")
        (asset_urls.wordmark_light.getD "") p
      ((if r.success then some p else none), r.written.toList)
    else (none, [])
  let back :=
    let p := pathJoin product_dir (slug ++ "_back.png")
    let r := compose_back fs main_image_path p
    ((if r.success then some p else none), r.written.toList)
  let sleeve_dark :=
    if truthy asset_urls.logo_dark then
      let p := pathJoin product_dir (slug ++ "_sleeve_dark.png")
      let r := compose_sleeve fs (asset_urls.logo_dark.getD "") p
      ((if r.success then some p else none), r.written.toList)
    else (none, [])
  let sleeve_light :=
    if truthy asset_urls.logo_light then
      let p := pathJoin product_dir (slug ++ "_sleeve_light.png")
      let r := compose_sleeve fs (asset_urls.logo_light.getD "") p
      ((if r.success then some p else none), r.written.toList)
    else (none, [])
  ([("front_light", front_light.1), ("front_dark", front_dark.1), ("back", back.1),
    ("sleeve_light", sleeve_light.1), ("sleeve_dark", sleeve_dark.1)],
   front_light.2 ++ front_dark.2 ++ back.2 ++ sleeve_dark.2 ++ sleeve_light.2)

/-- Python float division: raises `ZeroDivisionError` on a zero
denominator, otherwise exact division (floats idealised as rationals). -/
def pydiv (a b : ℚ) : Except String ℚ :=
  if b = 0 then .error "ZeroDivisionError" else .ok (a / b)

/-- One character placed by `draw_curved_text`: its angular position, the
real-valued placement coordinates, and the rotation (in degrees) applied
to its tile.  The final integer paste offset `(int(x - font_size),
int(y - font_size))` is a truncation of these values and is not separately
recorded. -/
structure CharPlacement where
  ch : Char
  angle : ℚ
  x : ℚ
  y : ℚ
  rotation_deg : ℚ
deriving DecidableEq

/-- The raster `draw_curved_text` returns: canvas dimensions, ink colour,
and the placed characters in order. -/
structure CurvedTextImage where
  width : Nat
  height : Nat
  color : RGBA
  chars : List CharPlacement
deriving DecidableEq

/-- The denominator of the radius computation in `draw_curved_text`:
`2 * math.pi * abs(curve_strength) if abs(curve_strength) > 0 else 0.01`
(the conditional expression is the whole denominator, so zero curvature
substitutes the epsilon `0.01`).  `piq` stands for `math.pi`. -/
def curveDenominator (piq curve_strength : ℚ) : ℚ :=
  if 0 < |curve_strength| then 2 * piq * |curve_strength| else 1 / 100

/-- The per-character loop of `draw_curved_text`: walking the characters
with the running offset `current_x`, each character's angle is
`(current_x + char_width / 2) / radius` (raising `ZeroDivisionError` when
`radius` is zero), its coordinates are
`x = center_x + radius * sin(angle)` and
`y = center_y + (radius * (1 - cos(angle))) * sign`, and its tile is
rotated by `math.degrees(angle) = angle * 180 / pi`.  `sinq`/`cosq` stand
for `math.sin`/`math.cos`. -/
def place_chars (sinq cosq : ℚ → ℚ) (piq : ℚ) (font : Char → ℚ)
    (radius center_x center_y sign : ℚ) :
    List Char → ℚ → Except String (List CharPlacement)
  | [], _ => .ok []
  | c :: rest, current_x => do
      let char_width := font c
      let angle ← pydiv (current_x + char_width / 2) radius
      let x := center_x + radius * sinq angle
      let y := center_y + (radius * (1 - cosq angle)) * sign
      let tail ← place_chars sinq cosq piq font radius center_x center_y sign
        rest (current_x + char_width)
      .ok (⟨c, angle, x, y, angle * 180 / piq⟩ :: tail)

/-- `draw_curved_text(text, font_path, font_size, image_size,
curve_strength, color)`.  A font is abstracted to its per-character
advance-width function (`font.getbbox(char)[2]`); `fontRes` is the result
of `ImageFont.truetype(font_path, font_size)` — `none` when it raises
(missing or unloadable file), in which case the code falls back to
`ImageFont.load_default()`, here `defaultFont`.  `text_width` is the sum
of per-character widths, the radius is `text_width / curveDenominator`,
and the characters are placed starting from `current_x = -text_width / 2`. -/
def draw_curved_text (sinq cosq : ℚ → ℚ) (piq : ℚ)
    (fontRes : Option (Char → ℚ)) (defaultFont : Char → ℚ)
    (text : List Char) (image_size : Nat × Nat := (2400, 800))
    (curve_strength : ℚ := -(3/5)) (color : RGBA := (0, 0, 0, 255)) :
    Except String CurvedTextImage := do
  let w := image_size.1
  let h := image_size.2
  let center_x : ℚ := (w / 2 : Nat)
  let center_y : ℚ := ((h / 2 : Nat) : ℚ) + 50
  let font := fontRes.getD defaultFont
  let text_width : ℚ := (text.map font).sum
  let radius ← pydiv text_width (curveDenominator piq curve_strength)
  let sign : ℚ := if curve_strength < 0 then -1 else 1
  let chars ← place_chars sinq cosq piq font radius center_x center_y sign
    text (-text_width / 2)
  .ok ⟨w, h, color, chars⟩

/-- The per-character placements as the specification's algorithm
describes them: for each character, `angle = (offset + char_width/2) /
radius`, `x = center_x + radius * sin(angle)`,
`y = center_y + radius * (1 - cos(angle)) * sign` (sign `-1` for negative
curvature), tile rotation `angle` converted to degrees, the offset
advancing by the character's advance width.  Used to compare the code's
fallible loop against the specified total placement function. -/
def spec_char_placements (sinq cosq : ℚ → ℚ) (piq : ℚ) (font : Char → ℚ)
    (radius center_x center_y sign : ℚ) : List Char → ℚ → List CharPlacement
  | [], _ => []
  | c :: rest, offset =>
      let char_width := font c
      let angle := (offset + char_width / 2) / radius
      ⟨c, angle, center_x + radius * sinq angle,
        center_y + (radius * (1 - cosq angle)) * sign, angle * 180 / piq⟩
        :: spec_char_placements sinq cosq piq font radius center_x center_y sign
            rest (offset + char_width)

/-- The result dictionary of `render_title_with_libre_bodoni`, restricted
to the `'dark'`/`'light'` entries every caller consumes. -/
structure TitleRenderResult where
  dark : Option String
  light : Option String
deriving DecidableEq

/-- `LIBRE_BODONI_FONT['regular']` from `config_printful.py`. -/
def LIBRE_BODONI_FONT_regular : String :=
  "assets/fonts/Libre_Bodoni/static/LibreBodoni-Regular.ttf"

/-- `LIBRE_BODONI_FONT.get('curve', -0.11)`: the key is present with value
`-0.60`. -/
def LIBRE_BODONI_FONT_curve : ℚ := -(3/5)

/-- `CONTRAST_COLORS['dark_text'] = '#111111'` parsed to RGBA. -/
def dark_text_color : RGBA := (17, 17, 17, 255)

/-- `CONTRAST_COLORS['light_text'] = '#FFFFFF'` parsed to RGBA. -/
def light_text_color : RGBA := (255, 255, 255, 255)

/-- The font portion of the file system as `render_title_with_libre_bodoni`
observes it: `none` when `os.path.exists(font_path)` is false, `some fr`
when the file exists, with `fr` the outcome of loading it (`none` when
`ImageFont.truetype` raises on the existing file). -/
def FontFS := String → Option (Option (Char → ℚ))

/-- `render_title_with_libre_bodoni(title, output_dir)`: bails out with
`{'dark': None, 'light': None}` when the configured font file does not
exist; otherwise renders the title twice with `draw_curved_text`
(font size 180, curvature `-0.60`, dark then light colour) and saves
`{slug}_title_dark.png` and `{slug}_title_light.png` under `output_dir`.
Any rendering exception is caught and yields the `None`/`None` dictionary
with nothing saved.  The slug computation (`generate_kebab_slug`, plain
string munging from `utils/text_utils.py`) is taken as the parameter
`slug`; the claims do not depend on it. -/
def render_title_with_libre_bodoni (fontFs : FontFS) (sinq cosq : ℚ → ℚ)
    (piq : ℚ) (defaultFont : Char → ℚ) (title : String) (slug : String)
    (output_dir : String := "artifacts") :
    TitleRenderResult × List (String × CurvedTextImage) :=
  match fontFs LIBRE_BODONI_FONT_regular with
  | none => (⟨none, none⟩, [])
  | some fontRes =>
      let dr := draw_curved_text sinq cosq piq fontRes defaultFont title.toList
        (2400, 800) LIBRE_BODONI_FONT_curve dark_text_color
      let lr := draw_curved_text sinq cosq piq fontRes defaultFont title.toList
        (2400, 800) LIBRE_BODONI_FONT_curve light_text_color
      match dr, lr with
      | .ok img_dark, .ok img_light =>
          let dark_path := pathJoin output_dir (slug ++ "_title_dark.png")
          let light_path := pathJoin output_dir (slug ++ "_title_light.png")
          (⟨some dark_path, some light_path⟩,
            [(dark_path, img_dark), (light_path, img_light)])
      | _, _ => (⟨none, none⟩, [])

/-! ## Claim C1: safe-margin clamping -/

/-- C1: for every position `(x, y)`, element size, canvas size and margin,
`apply_safe_margins` returns coordinates that are at least `margin` on each
axis; whenever the element fits the safe area on an axis
(`elem_dim ≤ canvas_dim - 2 * margin`) the far edge satisfies
`x' + elem_w ≤ canvas_w - margin` (symmetrically for `y`); and when the
element is larger than the safe area on an axis the returned coordinate on
that axis is exactly `margin`. -/
theorem C1_apply_safe_margins_bounds (x y : Int) (elem_w elem_h canvas_w canvas_h : Nat)
    (margin : Int) :
    margin ≤ (apply_safe_margins (x, y) (elem_w, elem_h) (canvas_w, canvas_h) margin).1
    ∧ margin ≤ (apply_safe_margins (x, y) (elem_w, elem_h) (canvas_w, canvas_h) margin).2
    ∧ ((elem_w : Int) ≤ (canvas_w : Int) - 2 * margin →
        (apply_safe_margins (x, y) (elem_w, elem_h) (canvas_w, canvas_h) margin).1 + elem_w
          ≤ (canvas_w : Int) - margin)
    ∧ ((elem_h : Int) ≤ (canvas_h : Int) - 2 * margin →
        (apply_safe_margins (x, y) (elem_w, elem_h) (canvas_w, canvas_h) margin).2 + elem_h
          ≤ (canvas_h : Int) - margin)
    ∧ ((canvas_w : Int) - 2 * margin < (elem_w : Int) →
        (apply_safe_margins (x, y) (elem_w, elem_h) (canvas_w, canvas_h) margin).1 = margin)
    ∧ ((canvas_h : Int) - 2 * margin < (elem_h : Int) →
        (apply_safe_margins (x, y) (elem_w, elem_h) (canvas_w, canvas_h) margin).2 = margin) := by
  simp only [apply_safe_margins]
  omega

/-- Witness for C1 at a concrete input: a 3000x5000 element at position
`(0, 5000)` on the 3600x4800 main canvas with margin 75 (the element fits
horizontally, overflows vertically). -/
theorem C1_apply_safe_margins_bounds_witness :
    (75 : Int) ≤ (apply_safe_margins (0, 5000) (3000, 5000) (3600, 4800) 75).1
    ∧ (75 : Int) ≤ (apply_safe_margins (0, 5000) (3000, 5000) (3600, 4800) 75).2
    ∧ (((3000 : Nat) : Int) ≤ ((3600 : Nat) : Int) - 2 * 75 →
        (apply_safe_margins (0, 5000) (3000, 5000) (3600, 4800) 75).1 + (3000 : Nat)
          ≤ ((3600 : Nat) : Int) - 75)
    ∧ (((5000 : Nat) : Int) ≤ ((4800 : Nat) : Int) - 2 * 75 →
        (apply_safe_margins (0, 5000) (3000, 5000) (3600, 4800) 75).2 + (5000 : Nat)
          ≤ ((4800 : Nat) : Int) - 75)
    ∧ (((3600 : Nat) : Int) - 2 * 75 < ((3000 : Nat) : Int) →
        (apply_safe_margins (0, 5000) (3000, 5000) (3600, 4800) 75).1 = 75)
    ∧ (((4800 : Nat) : Int) - 2 * 75 < ((5000 : Nat) : Int) →
        (apply_safe_margins (0, 5000) (3000, 5000) (3600, 4800) 75).2 = 75) :=
  C1_apply_safe_margins_bounds 0 5000 3000 5000 3600 4800 75

/-! ## Claim C3: aspect-preserving resize -/

/-- C3 counterexample: on a 1x1 image with `width_percent = 27` over a
10-wide canvas, the code's `int(...)` truncation gives target width
`⌊2.7⌋ = 2`, whereas the claim's `round(canvas_width * P / 100)` is `3`. -/
theorem C3_resize_round_counterexample :
    (resize_maintaining_aspect ⟨1, 1, fun _ _ => (0, 0, 0, 255)⟩
        ⟨some 27, none, none⟩ (10, 10)).width = 2
    ∧ round ((10 * 27 : ℚ) / 100) = 3 := by
  constructor
  · rfl
  · norm_num [round_eq]

/-- Floor division undershoots by less than one divisor step. -/
lemma lt_div_succ_mul (a w : Nat) (hw : 0 < w) : a < (a / w + 1) * w := by
  have h1 := Nat.div_add_mod a w
  have h2 := Nat.mod_lt a hw
  have h3 : (a / w + 1) * w = w * (a / w) + w := by ring
  omega

/-- C3 as amended: with `width_percent = P` the output width is the
truncation `⌊canvas_w * P / 100⌋` (not the rounding), the output height is
`⌊width * source_h / source_w⌋`, which matches the source aspect ratio to
within one pixel (`height * sw ≤ width * sh < (height + 1) * sw`);
symmetrically for `height_percent` (tried only when `width_percent` is
absent); with neither key present the image is returned unchanged. -/
theorem C3_resize_floor_semantics (img : Image) (rule : LayoutRule) (cw ch : Nat) :
    (∀ P, rule.width_percent = some P → 0 < img.width →
      (resize_maintaining_aspect img rule (cw, ch)).width = cw * P / 100
      ∧ (resize_maintaining_aspect img rule (cw, ch)).height
          = cw * P / 100 * img.height / img.width
      ∧ (resize_maintaining_aspect img rule (cw, ch)).height * img.width
          ≤ cw * P / 100 * img.height
      ∧ cw * P / 100 * img.height
          < ((resize_maintaining_aspect img rule (cw, ch)).height + 1) * img.width)
    ∧ (∀ P, rule.width_percent = none → rule.height_percent = some P → 0 < img.height →
      (resize_maintaining_aspect img rule (cw, ch)).height = ch * P / 100
      ∧ (resize_maintaining_aspect img rule (cw, ch)).width
          = ch * P / 100 * img.width / img.height
      ∧ (resize_maintaining_aspect img rule (cw, ch)).width * img.height
          ≤ ch * P / 100 * img.width
      ∧ ch * P / 100 * img.width
          < ((resize_maintaining_aspect img rule (cw, ch)).width + 1) * img.height)
    ∧ (rule.width_percent = none → rule.height_percent = none →
        resize_maintaining_aspect img rule (cw, ch) = img) := by
  refine ⟨?_, ?_, ?_⟩
  · intro P hP hw
    have e1 : resize_maintaining_aspect img rule (cw, ch)
        = img.resize (cw * P / 100) (cw * P / 100 * img.height / img.width) := by
      simp only [resize_maintaining_aspect, hP]
    rw [e1]
    exact ⟨rfl, rfl, Nat.div_mul_le_self _ _, lt_div_succ_mul _ _ hw⟩
  · intro P hw hP hh
    have e1 : resize_maintaining_aspect img rule (cw, ch)
        = img.resize (ch * P / 100 * img.width / img.height) (ch * P / 100) := by
      simp only [resize_maintaining_aspect, hw, hP]
    rw [e1]
    exact ⟨rfl, rfl, Nat.div_mul_le_self _ _, lt_div_succ_mul _ _ hh⟩
  · intro hw hh
    simp only [resize_maintaining_aspect, hw, hh]

/-- Witness for the amended C3 at a concrete input: a 640x480 image
resized by the front main-image rule (`width_percent = 45`) over the
3600x4800 main canvas, giving width 1620 and height 1215. -/
theorem C3_resize_floor_semantics_witness :
    some (45 : Nat) = some 45 ∧ 0 < (640 : Nat)
    ∧ (resize_maintaining_aspect ⟨640, 480, fun _ _ => (0, 0, 0, 255)⟩
        front_main_image_rule (3600, 4800)).width = 3600 * 45 / 100
    ∧ (resize_maintaining_aspect ⟨640, 480, fun _ _ => (0, 0, 0, 255)⟩
        front_main_image_rule (3600, 4800)).height = 3600 * 45 / 100 * 480 / 640 := by
  have h := (C3_resize_floor_semantics ⟨640, 480, fun _ _ => (0, 0, 0, 255)⟩
    front_main_image_rule 3600 4800).1 45 rfl (by decide)
  exact ⟨rfl, by decide, h.1, h.2.1⟩

/-! ## Claim C2: canvas dimensions are authoritative -/

/-- Pasting a layer never changes the canvas dimensions. -/
lemma place_element_width (canvas img : Image) (rule : LayoutRule)
    (cs : Nat × Nat) (m : Nat) : (place_element canvas img rule cs m).width = canvas.width :=
  rfl

/-- Pasting a layer never changes the canvas dimensions. -/
lemma place_element_height (canvas img : Image) (rule : LayoutRule)
    (cs : Nat × Nat) (m : Nat) : (place_element canvas img rule cs m).height = canvas.height :=
  rfl

/-- The canvas `compose_front` saves, given what the file system holds at
the three input paths. -/
lemma compose_front_eq (fs : FS) (a t w op : String) :
    compose_front fs a t w op = ⟨true, some (op,
      (let c0 := Image.blank 3600 4800
       let c1 := match fs a with
         | some img => place_element c0 img front_main_image_rule (3600, 4800) 75
         | none => c0
       let c2 := match fs t with
         | some img => place_element c1 img front_title_rule (3600, 4800) 75
         | none => c1
       match fs w with
         | some img => place_element c2 img front_wordmark_rule (3600, 4800) 75
         | none => c2))⟩ :=
  rfl

/-- C2: a successful `compose_front`, `compose_back` or `compose_sleeve`
writes a raster whose pixel dimensions equal exactly its canvas template's
(main 3600x4800 for front and back, sleeve 900x4200), regardless of the
input elements' sizes. -/
theorem C2_output_dimensions_match_template (fs : FS)
    (a t w front_op back_op logo sleeve_op : String) :
    ((compose_front fs a t w front_op).success = true →
      ∃ img, (compose_front fs a t w front_op).written = some (front_op, img)
        ∧ img.width = CANVAS_TEMPLATES_main.width
        ∧ img.height = CANVAS_TEMPLATES_main.height)
    ∧ ((compose_back fs a back_op).success = true →
      ∃ img, (compose_back fs a back_op).written = some (back_op, img)
        ∧ img.width = CANVAS_TEMPLATES_main.width
        ∧ img.height = CANVAS_TEMPLATES_main.height)
    ∧ ((compose_sleeve fs logo sleeve_op).success = true →
      ∃ img, (compose_sleeve fs logo sleeve_op).written = some (sleeve_op, img)
        ∧ img.width = CANVAS_TEMPLATES_sleeve.width
        ∧ img.height = CANVAS_TEMPLATES_sleeve.height) := by
  refine ⟨fun _ => ?_, fun hb => ?_, fun hs => ?_⟩
  · rw [compose_front_eq]
    refine ⟨_, rfl, ?_, ?_⟩ <;>
      · cases fs a <;> cases fs t <;> cases fs w <;> rfl
  · cases ha : fs a with
    | none => simp [compose_back, ha] at hb
    | some img =>
        refine ⟨place_element (Image.blank 3600 4800) img back_main_image_rule
          (3600, 4800) 75, ?_, rfl, rfl⟩
        simp [compose_back, ha, CANVAS_TEMPLATES_main]
  · cases hl : fs logo with
    | none => simp [compose_sleeve, hl] at hs
    | some img =>
        refine ⟨place_element (Image.blank 900 4200) img sleeve_logo_rule
          (900, 4200) 75, ?_, rfl, rfl⟩
        simp [compose_sleeve, hl, CANVAS_TEMPLATES_sleeve]

/-- Witness for C2 with a concrete file system holding a 2000x2000
artwork, a 2400x800 title, an 800x300 wordmark and a 512x512 logo. -/
theorem C2_output_dimensions_match_template_witness :
    ((compose_front
        (fun p => if p = "art.png" then some ⟨2000, 2000, fun _ _ => (0, 0, 0, 255)⟩
          else if p = "title.png" then some ⟨2400, 800, fun _ _ => (0, 0, 0, 255)⟩
          else if p = "wm.png" then some ⟨800, 300, fun _ _ => (0, 0, 0, 255)⟩
          else if p = "logo.png" then some ⟨512, 512, fun _ _ => (0, 0, 0, 255)⟩
          else none)
        "art.png" "title.png" "wm.png" "front.png").success = true →
      ∃ img, (compose_front
        (fun p => if p = "art.png" then some ⟨2000, 2000, fun _ _ => (0, 0, 0, 255)⟩
          else if p = "title.png" then some ⟨2400, 800, fun _ _ => (0, 0, 0, 255)⟩
          else if p = "wm.png" then some ⟨800, 300, fun _ _ => (0, 0, 0, 255)⟩
          else if p = "logo.png" then some ⟨512, 512, fun _ _ => (0, 0, 0, 255)⟩
          else none)
        "art.png" "title.png" "wm.png" "front.png").written = some ("front.png", img)
        ∧ img.width = CANVAS_TEMPLATES_main.width
        ∧ img.height = CANVAS_TEMPLATES_main.height)
    ∧ ((compose_back
        (fun p => if p = "art.png" then some ⟨2000, 2000, fun _ _ => (0, 0, 0, 255)⟩
          else if p = "title.png" then some ⟨2400, 800, fun _ _ => (0, 0, 0, 255)⟩
          else if p = "wm.png" then some ⟨800, 300, fun _ _ => (0, 0, 0, 255)⟩
          else if p = "logo.png" then some ⟨512, 512, fun _ _ => (0, 0, 0, 255)⟩
          else none)
        "art.png" "back.png").success = true →
      ∃ img, (compose_back
        (fun p => if p = "art.png" then some ⟨2000, 2000, fun _ _ => (0, 0, 0, 255)⟩
          else if p = "title.png" then some ⟨2400, 800, fun _ _ => (0, 0, 0, 255)⟩
          else if p = "wm.png" then some ⟨800, 300, fun _ _ => (0, 0, 0, 255)⟩
          else if p = "logo.png" then some ⟨512, 512, fun _ _ => (0, 0, 0, 255)⟩
          else none)
        "art.png" "back.png").written = some ("back.png", img)
        ∧ img.width = CANVAS_TEMPLATES_main.width
        ∧ img.height = CANVAS_TEMPLATES_main.height)
    ∧ ((compose_sleeve
        (fun p => if p = "art.png" then some ⟨2000, 2000, fun _ _ => (0, 0, 0, 255)⟩
          else if p = "title.png" then some ⟨2400, 800, fun _ _ => (0, 0, 0, 255)⟩
          else if p = "wm.png" then some ⟨800, 300, fun _ _ => (0, 0, 0, 255)⟩
          else if p = "logo.png" then some ⟨512, 512, fun _ _ => (0, 0, 0, 255)⟩
          else none)
        "logo.png" "sleeve.png").success = true →
      ∃ img, (compose_sleeve
        (fun p => if p = "art.png" then some ⟨2000, 2000, fun _ _ => (0, 0, 0, 255)⟩
          else if p = "title.png" then some ⟨2400, 800, fun _ _ => (0, 0, 0, 255)⟩
          else if p = "wm.png" then some ⟨800, 300, fun _ _ => (0, 0, 0, 255)⟩
          else if p = "logo.png" then some ⟨512, 512, fun _ _ => (0, 0, 0, 255)⟩
          else none)
        "logo.png" "sleeve.png").written = some ("sleeve.png", img)
        ∧ img.width = CANVAS_TEMPLATES_sleeve.width
        ∧ img.height = CANVAS_TEMPLATES_sleeve.height) :=
  C2_output_dimensions_match_template _ "art.png" "title.png" "wm.png" "front.png"
    "back.png" "logo.png" "sleeve.png"

/-! ## Claim C6: missing-input behaviour of compose_back / compose_front -/

/-- C6: `compose_back` on a missing artwork path returns `False` and
writes nothing, while `compose_front` with a present artwork returns
`True` and writes a canvas holding exactly the layers whose inputs exist,
in every missing-optional-layer configuration: title and wordmark both
missing (artwork only), wordmark missing but title present (artwork then
title placed), and title missing but wordmark present (artwork then
wordmark placed) — success regardless of how many layers were placed. -/
theorem C6_missing_input_semantics (fs : FS)
    (a a2 t1 w1 t2 w2 t3 w3 front_op back_op : String) (aimg timg wimg : Image)
    (ha : fs a = some aimg) (ha2 : fs a2 = none)
    (ht1 : fs t1 = none) (hw1 : fs w1 = none)
    (ht2 : fs t2 = some timg) (hw2 : fs w2 = none)
    (ht3 : fs t3 = none) (hw3 : fs w3 = some wimg) :
    compose_back fs a2 back_op = ⟨false, none⟩
    ∧ compose_front fs a t1 w1 front_op = ⟨true, some (front_op,
        place_element (Image.blank 3600 4800) aimg front_main_image_rule (3600, 4800) 75)⟩
    ∧ compose_front fs a t2 w2 front_op = ⟨true, some (front_op,
        place_element
          (place_element (Image.blank 3600 4800) aimg front_main_image_rule (3600, 4800) 75)
          timg front_title_rule (3600, 4800) 75)⟩
    ∧ compose_front fs a t3 w3 front_op = ⟨true, some (front_op,
        place_element
          (place_element (Image.blank 3600 4800) aimg front_main_image_rule (3600, 4800) 75)
          wimg front_wordmark_rule (3600, 4800) 75)⟩ := by
  refine ⟨?_, ?_, ?_, ?_⟩
  · simp [compose_back, ha2]
  · rw [compose_front_eq]
    simp only [ha, ht1, hw1]
  · rw [compose_front_eq]
    simp only [ha, ht2, hw2]
  · rw [compose_front_eq]
    simp only [ha, ht3, hw3]

/-- Witness for C6 with a concrete file system holding a 2000x2000
artwork, a 2400x800 title and an 800x300 wordmark; the three front calls
use path combinations with the title missing, the wordmark missing, and
both missing. -/
theorem C6_missing_input_semantics_witness :
    compose_back
      (fun p => if p = "art.png" then some ⟨2000, 2000, fun _ _ => (0, 0, 0, 255)⟩
        else if p = "title.png" then some ⟨2400, 800, fun _ _ => (1, 1, 1, 255)⟩
        else if p = "wm.png" then some ⟨800, 300, fun _ _ => (2, 2, 2, 255)⟩
        else none)
      "missing_art.png" "back.png" = ⟨false, none⟩
    ∧ compose_front
      (fun p => if p = "art.png" then some ⟨2000, 2000, fun _ _ => (0, 0, 0, 255)⟩
        else if p = "title.png" then some ⟨2400, 800, fun _ _ => (1, 1, 1, 255)⟩
        else if p = "wm.png" then some ⟨800, 300, fun _ _ => (2, 2, 2, 255)⟩
        else none)
      "art.png" "no_title.png" "no_wm.png" "front.png" = ⟨true, some ("front.png",
        place_element (Image.blank 3600 4800) ⟨2000, 2000, fun _ _ => (0, 0, 0, 255)⟩
          front_main_image_rule (3600, 4800) 75)⟩
    ∧ compose_front
      (fun p => if p = "art.png" then some ⟨2000, 2000, fun _ _ => (0, 0, 0, 255)⟩
        else if p = "title.png" then some ⟨2400, 800, fun _ _ => (1, 1, 1, 255)⟩
        else if p = "wm.png" then some ⟨800, 300, fun _ _ => (2, 2, 2, 255)⟩
        else none)
      "art.png" "title.png" "no_wm.png" "front.png" = ⟨true, some ("front.png",
        place_element
          (place_element (Image.blank 3600 4800) ⟨2000, 2000, fun _ _ => (0, 0, 0, 255)⟩
            front_main_image_rule (3600, 4800) 75)
          ⟨2400, 800, fun _ _ => (1, 1, 1, 255)⟩ front_title_rule (3600, 4800) 75)⟩
    ∧ compose_front
      (fun p => if p = "art.png" then some ⟨2000, 2000, fun _ _ => (0, 0, 0, 255)⟩
        else if p = "title.png" then some ⟨2400, 800, fun _ _ => (1, 1, 1, 255)⟩
        else if p = "wm.png" then some ⟨800, 300, fun _ _ => (2, 2, 2, 255)⟩
        else none)
      "art.png" "no_title.png" "wm.png" "front.png" = ⟨true, some ("front.png",
        place_element
          (place_element (Image.blank 3600 4800) ⟨2000, 2000, fun _ _ => (0, 0, 0, 255)⟩
            front_main_image_rule (3600, 4800) 75)
          ⟨800, 300, fun _ _ => (2, 2, 2, 255)⟩ front_wordmark_rule (3600, 4800) 75)⟩ :=
  C6_missing_input_semantics
    (fun p => if p = "art.png" then some ⟨2000, 2000, fun _ _ => (0, 0, 0, 255)⟩
      else if p = "title.png" then some ⟨2400, 800, fun _ _ => (1, 1, 1, 255)⟩
      else if p = "wm.png" then some ⟨800, 300, fun _ _ => (2, 2, 2, 255)⟩
      else none)
    "art.png" "missing_art.png" "no_title.png" "no_wm.png" "title.png" "no_wm.png"
    "no_title.png" "wm.png" "front.png" "back.png"
    ⟨2000, 2000, fun _ _ => (0, 0, 0, 255)⟩ ⟨2400, 800, fun _ _ => (1, 1, 1, 255)⟩
    ⟨800, 300, fun _ _ => (2, 2, 2, 255)⟩
    rfl rfl rfl rfl rfl rfl rfl rfl

/-! ## Claims C7 / C10: the five-variant result map -/

/-- `compose_front` reaches its save and returns `True` no matter which of
its three input layers exist. -/
lemma compose_front_success (fs : FS) (a t w op : String) :
    (compose_front fs a t w op).success = true :=
  rfl

/-- `compose_back` succeeds exactly when the artwork path exists. -/
lemma compose_back_success (fs : FS) (p op : String) :
    (compose_back fs p op).success = (fs p).isSome := by
  cases h : fs p <;> simp [compose_back, h]

/-- `compose_sleeve` succeeds exactly when the logo path exists. -/
lemma compose_sleeve_success (fs : FS) (p op : String) :
    (compose_sleeve fs p op).success = (fs p).isSome := by
  cases h : fs p <;> simp [compose_sleeve, h]

/-- The results dictionary of `create_all_variants_for_product`, entry by
entry: each entry is decided solely by its own gate condition and input
file, independent of the other four compositions. -/
lemma create_results_eq (fs : FS) (slug main odir : String) (assets : AssetUrls) :
    (create_all_variants_for_product fs slug main assets odir).1 =
      [("front_light", if truthy assets.title_dark && truthy assets.wordmark_dark
          then some (pathJoin (pathJoin odir slug) (slug ++ "_front_light.png")) else none),
       ("front_dark", if truthy assets.title_light && truthy assets.wordmark_light
          then some (pathJoin (pathJoin odir slug) (slug ++ "_front_dark.png")) else none),
       ("back", if (fs main).isSome
          then some (pathJoin (pathJoin odir slug) (slug ++ "_back.png")) else none),
       ("sleeve_light", if truthy assets.logo_light
            && (fs (assets.logo_light.getD "")).isSome
          then some (pathJoin (pathJoin odir slug) (slug ++ "_sleeve_light.png")) else none),
       ("sleeve_dark", if truthy assets.logo_dark
            && (fs (assets.logo_dark.getD "")).isSome
          then some (pathJoin (pathJoin odir slug) (slug ++ "_sleeve_dark.png")) else none)] := by
  simp only [create_all_variants_for_product, List.cons.injEq, Prod.mk.injEq]
  refine ⟨⟨trivial, ?_⟩, ⟨trivial, ?_⟩, ⟨trivial, ?_⟩, ⟨trivial, ?_⟩, ⟨trivial, ?_⟩, trivial⟩
  · cases hg : truthy assets.title_dark && truthy assets.wordmark_dark <;>
      simp [hg, compose_front_success]
  · cases hg : truthy assets.title_light && truthy assets.wordmark_light <;>
      simp [hg, compose_front_success]
  · simp only [compose_back_success]
  · cases hg : truthy assets.logo_light <;>
      simp [hg, compose_sleeve_success]
  · cases hg : truthy assets.logo_dark <;>
      simp [hg, compose_sleeve_success]

/-- C7: for every input, `create_all_variants_for_product` returns a map
with exactly the five keys `front_light`, `front_dark`, `back`,
`sleeve_light`, `sleeve_dark`; each entry is `None` exactly when its own
gate or required input fails, independently of the other compositions
(in particular a missing `logo_light` makes only `sleeve_light` `None`). -/
theorem C7_variant_map_complete_and_independent (fs : FS) (slug main odir : String)
    (assets : AssetUrls) :
    ((create_all_variants_for_product fs slug main assets odir).1.map Prod.fst
      = ["front_light", "front_dark", "back", "sleeve_light", "sleeve_dark"])
    ∧ (create_all_variants_for_product fs slug main assets odir).1.lookup "front_light"
      = some (if truthy assets.title_dark && truthy assets.wordmark_dark
          then some (pathJoin (pathJoin odir slug) (slug ++ "_front_light.png")) else none)
    ∧ (create_all_variants_for_product fs slug main assets odir).1.lookup "front_dark"
      = some (if truthy assets.title_light && truthy assets.wordmark_light
          then some (pathJoin (pathJoin odir slug) (slug ++ "_front_dark.png")) else none)
    ∧ (create_all_variants_for_product fs slug main assets odir).1.lookup "back"
      = some (if (fs main).isSome
          then some (pathJoin (pathJoin odir slug) (slug ++ "_back.png")) else none)
    ∧ (create_all_variants_for_product fs slug main assets odir).1.lookup "sleeve_light"
      = some (if truthy assets.logo_light && (fs (assets.logo_light.getD "")).isSome
          then some (pathJoin (pathJoin odir slug) (slug ++ "_sleeve_light.png")) else none)
    ∧ (create_all_variants_for_product fs slug main assets odir).1.lookup "sleeve_dark"
      = some (if truthy assets.logo_dark && (fs (assets.logo_dark.getD "")).isSome
          then some (pathJoin (pathJoin odir slug) (slug ++ "_sleeve_dark.png")) else none) := by
  rw [create_results_eq fs slug main odir assets]
  exact ⟨rfl, rfl, rfl, rfl, rfl, rfl⟩

/-- C10: `front_light` is attempted only when the asset map holds truthy
`title_dark` and `wordmark_dark` (`front_dark` likewise with the light
assets); when either is absent or falsy the front entry is `None` even
though the artwork path exists; the `back` composition is attempted
unconditionally (and here succeeds, because the artwork exists). -/
theorem C10_front_gating_back_unconditional (fs : FS) (slug main odir : String)
    (assets : AssetUrls) (aimg : Image) (hart : fs main = some aimg) :
    (¬(truthy assets.title_dark = true ∧ truthy assets.wordmark_dark = true) →
      (create_all_variants_for_product fs slug main assets odir).1.lookup "front_light"
        = some none)
    ∧ (¬(truthy assets.title_light = true ∧ truthy assets.wordmark_light = true) →
      (create_all_variants_for_product fs slug main assets odir).1.lookup "front_dark"
        = some none)
    ∧ (truthy assets.title_dark = true → truthy assets.wordmark_dark = true →
      (create_all_variants_for_product fs slug main assets odir).1.lookup "front_light"
        = some (some (pathJoin (pathJoin odir slug) (slug ++ "_front_light.png"))))
    ∧ (truthy assets.title_light = true → truthy assets.wordmark_light = true →
      (create_all_variants_for_product fs slug main assets odir).1.lookup "front_dark"
        = some (some (pathJoin (pathJoin odir slug) (slug ++ "_front_dark.png"))))
    ∧ (create_all_variants_for_product fs slug main assets odir).1.lookup "back"
        = some (some (pathJoin (pathJoin odir slug) (slug ++ "_back.png"))) := by
  rw [create_results_eq fs slug main odir assets]
  refine ⟨?_, ?_, ?_, ?_, ?_⟩
  · intro h
    have hg : (truthy assets.title_dark && truthy assets.wordmark_dark) = false := by
      cases h1 : truthy assets.title_dark <;> cases h2 : truthy assets.wordmark_dark <;>
        simp_all
    simp [List.lookup, hg]
  · intro h
    have hg : (truthy assets.title_light && truthy assets.wordmark_light) = false := by
      cases h1 : truthy assets.title_light <;> cases h2 : truthy assets.wordmark_light <;>
        simp_all
    simp [List.lookup, hg]
  · intro h1 h2
    simp [List.lookup, h1, h2]
  · intro h1 h2
    simp [List.lookup, h1, h2]
  · simp [List.lookup, hart]

/-- Witness for C10: `title_dark` is present but empty (falsy), the light
title and wordmark are truthy, the artwork file exists. -/
theorem C10_front_gating_back_unconditional_witness :
    (¬(truthy (some "") = true ∧ truthy (some "wd.png") = true) →
      (create_all_variants_for_product
        (fun p => if p = "art.png" then some ⟨2000, 2000, fun _ _ => (0, 0, 0, 255)⟩ else none)
        "horse" "art.png"
        ⟨some "", some "tl.png", some "wd.png", some "wl.png", none, none⟩
        "artifacts").1.lookup "front_light" = some none)
    ∧ (¬(truthy (some "tl.png") = true ∧ truthy (some "wl.png") = true) →
      (create_all_variants_for_product
        (fun p => if p = "art.png" then some ⟨2000, 2000, fun _ _ => (0, 0, 0, 255)⟩ else none)
        "horse" "art.png"
        ⟨some "", some "tl.png", some "wd.png", some "wl.png", none, none⟩
        "artifacts").1.lookup "front_dark" = some none)
    ∧ (truthy (some "") = true → truthy (some "wd.png") = true →
      (create_all_variants_for_product
        (fun p => if p = "art.png" then some ⟨2000, 2000, fun _ _ => (0, 0, 0, 255)⟩ else none)
        "horse" "art.png"
        ⟨some "", some "tl.png", some "wd.png", some "wl.png", none, none⟩
        "artifacts").1.lookup "front_light"
        = some (some (pathJoin (pathJoin "artifacts" "horse") ("horse" ++ "_front_light.png"))))
    ∧ (truthy (some "tl.png") = true → truthy (some "wl.png") = true →
      (create_all_variants_for_product
        (fun p => if p = "art.png" then some ⟨2000, 2000, fun _ _ => (0, 0, 0, 255)⟩ else none)
        "horse" "art.png"
        ⟨some "", some "tl.png", some "wd.png", some "wl.png", none, none⟩
        "artifacts").1.lookup "front_dark"
        = some (some (pathJoin (pathJoin "artifacts" "horse") ("horse" ++ "_front_dark.png"))))
    ∧ (create_all_variants_for_product
        (fun p => if p = "art.png" then some ⟨2000, 2000, fun _ _ => (0, 0, 0, 255)⟩ else none)
        "horse" "art.png"
        ⟨some "", some "tl.png", some "wd.png", some "wl.png", none, none⟩
        "artifacts").1.lookup "back"
        = some (some (pathJoin (pathJoin "artifacts" "horse") ("horse" ++ "_back.png"))) :=
  C10_front_gating_back_unconditional
    (fun p => if p = "art.png" then some ⟨2000, 2000, fun _ _ => (0, 0, 0, 255)⟩ else none)
    "horse" "art.png" "artifacts"
    ⟨some "", some "tl.png", some "wd.png", some "wl.png", none, none⟩
    ⟨2000, 2000, fun _ _ => (0, 0, 0, 255)⟩ rfl

/-! ## Claim C8: determinism and idempotence of create_all_variants -/

/-- `compose_front` depends on the file system only at its three input
paths. -/
lemma compose_front_congr (fs fs' : FS) (a t w op : String)
    (ha : fs' a = fs a) (ht : fs' t = fs t) (hw : fs' w = fs w) :
    compose_front fs' a t w op = compose_front fs a t w op := by
  rw [compose_front_eq, compose_front_eq, ha, ht, hw]

/-- `compose_back` depends on the file system only at the artwork path. -/
lemma compose_back_congr (fs fs' : FS) (p op : String) (h : fs' p = fs p) :
    compose_back fs' p op = compose_back fs p op := by
  simp only [compose_back, h]

/-- `compose_sleeve` depends on the file system only at the logo path. -/
lemma compose_sleeve_congr (fs fs' : FS) (p op : String) (h : fs' p = fs p) :
    compose_sleeve fs' p op = compose_sleeve fs p op := by
  simp only [compose_sleeve, h]

/-- C8: `create_all_variants_for_product` is deterministic and idempotent:
two invocations whose file systems agree on the artwork path and on every
asset path (identical slug, artwork, asset rasters and output directory)
return equal result maps and write the same canvases — identical paths,
dimensions and per-pixel contents — so a second run overwrites the first
run's files with identical bytes. -/
theorem C8_create_all_variants_deterministic (fs fs' : FS) (slug main odir : String)
    (assets : AssetUrls)
    (hmain : fs' main = fs main)
    (htd : fs' (assets.title_dark.getD "") = fs (assets.title_dark.getD ""))
    (htl : fs' (assets.title_light.getD "") = fs (assets.title_light.getD ""))
    (hwd : fs' (assets.wordmark_dark.getD "") = fs (assets.wordmark_dark.getD ""))
    (hwl : fs' (assets.wordmark_light.getD "") = fs (assets.wordmark_light.getD ""))
    (hld : fs' (assets.logo_dark.getD "") = fs (assets.logo_dark.getD ""))
    (hll : fs' (assets.logo_light.getD "") = fs (assets.logo_light.getD "")) :
    create_all_variants_for_product fs' slug main assets odir
      = create_all_variants_for_product fs slug main assets odir := by
  simp only [create_all_variants_for_product]
  rw [compose_front_congr fs fs' main (assets.title_dark.getD "")
      (assets.wordmark_dark.getD "") _ hmain htd hwd,
    compose_front_congr fs fs' main (assets.title_light.getD "")
      (assets.wordmark_light.getD "") _ hmain htl hwl,
    compose_back_congr fs fs' main _ hmain,
    compose_sleeve_congr fs fs' (assets.logo_dark.getD "") _ hld,
    compose_sleeve_congr fs fs' (assets.logo_light.getD "") _ hll]

/-- Witness for C8: two structurally different file systems that agree on
the artwork and asset paths produce identical result maps and writes. -/
theorem C8_create_all_variants_deterministic_witness :
    create_all_variants_for_product
      (fun p => if p = "extra.png" then some ⟨64, 64, fun _ _ => (1, 2, 3, 255)⟩
        else if p = "art.png" then some ⟨2000, 2000, fun _ _ => (0, 0, 0, 255)⟩
        else if p = "ld.png" then some ⟨512, 512, fun _ _ => (9, 9, 9, 255)⟩
        else none)
      "horse" "art.png" ⟨some "td.png", none, some "wd.png", none, some "ld.png", none⟩
      "artifacts"
    = create_all_variants_for_product
      (fun p => if p = "art.png" then some ⟨2000, 2000, fun _ _ => (0, 0, 0, 255)⟩
        else if p = "ld.png" then some ⟨512, 512, fun _ _ => (9, 9, 9, 255)⟩
        else none)
      "horse" "art.png" ⟨some "td.png", none, some "wd.png", none, some "ld.png", none⟩
      "artifacts" :=
  C8_create_all_variants_deterministic
    (fun p => if p = "art.png" then some ⟨2000, 2000, fun _ _ => (0, 0, 0, 255)⟩
      else if p = "ld.png" then some ⟨512, 512, fun _ _ => (9, 9, 9, 255)⟩
      else none)
    (fun p => if p = "extra.png" then some ⟨64, 64, fun _ _ => (1, 2, 3, 255)⟩
      else if p = "art.png" then some ⟨2000, 2000, fun _ _ => (0, 0, 0, 255)⟩
      else if p = "ld.png" then some ⟨512, 512, fun _ _ => (9, 9, 9, 255)⟩
      else none)
    "horse" "art.png" "artifacts"
    ⟨some "td.png", none, some "wd.png", none, some "ld.png", none⟩
    rfl rfl rfl rfl rfl rfl rfl

/-! ## Claims C4 / C5 / C9: the curved-text renderer -/

/-- Monadic bind on a successful `Except` step. -/
lemma except_ok_bind {ε α β : Type} (a : α) (f : α → Except ε β) :
    (Except.ok a >>= f) = f a :=
  rfl

/-- Monadic bind on a failed `Except` step. -/
lemma except_error_bind {ε α β : Type} (e : ε) (f : α → Except ε β) :
    ((Except.error e : Except ε α) >>= f) = .error e :=
  rfl

/-- With a nonzero radius the fallible character loop agrees with the
specified total placement function. -/
lemma place_chars_eq_spec (sinq cosq : ℚ → ℚ) (piq : ℚ) (font : Char → ℚ)
    (radius center_x center_y sign : ℚ) (hr : radius ≠ 0) :
    ∀ (xs : List Char) (cur : ℚ),
      place_chars sinq cosq piq font radius center_x center_y sign xs cur
        = .ok (spec_char_placements sinq cosq piq font radius center_x center_y sign xs cur) := by
  intro xs
  induction xs with
  | nil => intro cur; rfl
  | cons c rest ih =>
      intro cur
      simp [place_chars, spec_char_placements, pydiv, hr, ih, except_ok_bind]

/-- The radius denominator is never zero (pi is positive): nonzero
curvature gives `2 * pi * |c| > 0`, zero curvature the epsilon `0.01`. -/
lemma curveDenominator_ne_zero (piq c : ℚ) (hpi : 0 < piq) :
    curveDenominator piq c ≠ 0 := by
  unfold curveDenominator
  split_ifs with h
  · positivity
  · norm_num

/-- `draw_curved_text` completes (no `ZeroDivisionError`) whenever the
text is empty or its total advance width is nonzero, and its output is the
canvas of the requested size, the requested colour, and the specified
placement sequence at radius `text_width / curveDenominator`. -/
lemma draw_curved_text_eq_ok (sinq cosq : ℚ → ℚ) (piq : ℚ)
    (fontRes : Option (Char → ℚ)) (defaultFont : Char → ℚ) (text : List Char)
    (sz : Nat × Nat) (c : ℚ) (col : RGBA) (hpi : 0 < piq)
    (htw : text = [] ∨ (text.map (fontRes.getD defaultFont)).sum ≠ 0) :
    draw_curved_text sinq cosq piq fontRes defaultFont text sz c col
      = .ok ⟨sz.1, sz.2, col,
          spec_char_placements sinq cosq piq (fontRes.getD defaultFont)
            ((text.map (fontRes.getD defaultFont)).sum / curveDenominator piq c)
            ((sz.1 / 2 : Nat) : ℚ) (((sz.2 / 2 : Nat) : ℚ) + 50)
            (if c < 0 then -1 else 1) text
            (-(text.map (fontRes.getD defaultFont)).sum / 2)⟩ := by
  have hden := curveDenominator_ne_zero piq c hpi
  rcases htw with hnil | hsum
  · subst hnil
    simp [draw_curved_text, pydiv, hden, place_chars, spec_char_placements, except_ok_bind]
  · have hr : (text.map (fontRes.getD defaultFont)).sum / curveDenominator piq c ≠ 0 :=
      div_ne_zero hsum hden
    simp [draw_curved_text, pydiv, hden, except_ok_bind,
      place_chars_eq_spec _ _ _ _ _ _ _ _ hr]

/-- C4 counterexample: a non-empty text of zero total advance width makes
`radius = 0 / denominator = 0`, and the first per-character angle division
raises `ZeroDivisionError` — rendering does not complete, contrary to the
claim's "every text string (including one of zero total advance width)". -/
theorem C4_zero_width_raises_counterexample :
    draw_curved_text (fun q => q) (fun q => q) (355/113) (some (fun _ => 0)) (fun _ => 1)
      ['a'] (2400, 800) (-(3/5)) (0, 0, 0, 255)
      = .error "ZeroDivisionError" := by
  have hden : curveDenominator (355/113) (-(3/5)) ≠ 0 :=
    curveDenominator_ne_zero (355/113) (-(3/5)) (by norm_num)
  simp [draw_curved_text, pydiv, hden, place_chars, except_ok_bind, except_error_bind]

/-- C4 as amended: for every curvature coefficient — including exactly 0,
where the radius denominator substitutes the epsilon `0.01` instead of
dividing by zero — rendering completes without raising, provided the text
is empty or has nonzero total advance width; a non-empty text whose
advance widths sum to zero instead raises `ZeroDivisionError` in the
per-character angle computation (see the counterexample). -/
theorem C4_no_raise_amended (sinq cosq : ℚ → ℚ) (piq : ℚ)
    (fontRes : Option (Char → ℚ)) (defaultFont : Char → ℚ) (text : List Char)
    (sz : Nat × Nat) (c : ℚ) (col : RGBA) (hpi : 0 < piq)
    (htw : text = [] ∨ (text.map (fontRes.getD defaultFont)).sum ≠ 0) :
    (∃ img, draw_curved_text sinq cosq piq fontRes defaultFont text sz c col = .ok img)
    ∧ curveDenominator piq 0 = 1 / 100 := by
  refine ⟨⟨_, draw_curved_text_eq_ok sinq cosq piq fontRes defaultFont text sz c col hpi htw⟩, ?_⟩
  simp [curveDenominator]

/-- Witness for the amended C4 at curvature exactly 0 (the epsilon
branch) on a two-character text of positive advance width. -/
theorem C4_no_raise_amended_witness :
    (0 : ℚ) < 355/113
    ∧ ((['A', 'b'] = ([] : List Char) ∨
        (['A', 'b'].map ((none : Option (Char → ℚ)).getD (fun _ => 10))).sum ≠ 0)
      ∧ ((∃ img, draw_curved_text (fun q => q) (fun q => q) (355/113) none (fun _ => 10)
            ['A', 'b'] (2400, 800) 0 (0, 0, 0, 255) = .ok img)
        ∧ curveDenominator (355/113) 0 = 1 / 100)) :=
  ⟨by norm_num, Or.inr (by norm_num),
    C4_no_raise_amended (fun q => q) (fun q => q) (355/113) none (fun _ => 10)
      ['A', 'b'] (2400, 800) 0 (0, 0, 0, 255) (by norm_num) (Or.inr (by norm_num))⟩

/-- C5 counterexample: with nonzero curvature `-0.6` but a non-empty text
of zero total advance width, `draw_curved_text` raises instead of placing
the characters at the claimed angles/coordinates — the claim's universal
quantification over "every text string" fails. -/
theorem C5_zero_width_no_placement_counterexample :
    draw_curved_text (fun q => q + 1) (fun q => q - 1) (22/7) none (fun _ => 0)
      ['x', 'y'] (2400, 800) (-(3/5)) (17, 17, 17, 255)
      = .error "ZeroDivisionError" := by
  have hden : curveDenominator (22/7) (-(3/5)) ≠ 0 :=
    curveDenominator_ne_zero (22/7) (-(3/5)) (by norm_num)
  simp [draw_curved_text, pydiv, hden, place_chars, except_ok_bind, except_error_bind]

/-- C5 as amended: for every text of nonzero total advance width and
nonzero curvature `c`, `draw_curved_text` computes
`radius = text_width / (2 * pi * |c|)` and places the characters exactly
as specified: walking from offset `-text_width / 2`, each character gets
`angle = (offset + char_width / 2) / radius`,
`x = center_x + radius * sin(angle)`,
`y = center_y + radius * (1 - cos(angle)) * sign` with sign `-1` iff
`c < 0`, and a tile rotation of `angle` converted to degrees, the offset
advancing by the character's advance width. -/
theorem C5_arc_placement_amended (sinq cosq : ℚ → ℚ) (piq : ℚ)
    (fontRes : Option (Char → ℚ)) (defaultFont : Char → ℚ) (text : List Char)
    (w h : Nat) (c : ℚ) (col : RGBA) (hpi : 0 < piq) (hc : c ≠ 0)
    (htw : (text.map (fontRes.getD defaultFont)).sum ≠ 0) :
    draw_curved_text sinq cosq piq fontRes defaultFont text (w, h) c col
      = .ok ⟨w, h, col,
          spec_char_placements sinq cosq piq (fontRes.getD defaultFont)
            ((text.map (fontRes.getD defaultFont)).sum / (2 * piq * |c|))
            ((w / 2 : Nat) : ℚ) (((h / 2 : Nat) : ℚ) + 50)
            (if c < 0 then -1 else 1) text
            (-(text.map (fontRes.getD defaultFont)).sum / 2)⟩ := by
  have hd : curveDenominator piq c = 2 * piq * |c| := by
    simp [curveDenominator, abs_pos.mpr hc]
  have he := draw_curved_text_eq_ok sinq cosq piq fontRes defaultFont text (w, h) c col
    hpi (Or.inr htw)
  rw [hd] at he
  exact he

/-- Witness for the amended C5: three characters of width 12 at
curvature `-0.6`. -/
theorem C5_arc_placement_amended_witness :
    (0 : ℚ) < 355/113
    ∧ (-(3/5) : ℚ) ≠ 0
    ∧ (['O', 'n', 'e'].map ((some (fun _ => (12 : ℚ))).getD (fun _ => 5))).sum ≠ 0
    ∧ draw_curved_text (fun q => q) (fun q => q) (355/113) (some (fun _ => 12)) (fun _ => 5)
        ['O', 'n', 'e'] (2400, 800) (-(3/5)) (17, 17, 17, 255)
      = .ok ⟨2400, 800, (17, 17, 17, 255),
          spec_char_placements (fun q => q) (fun q => q) (355/113)
            ((some (fun _ => (12 : ℚ))).getD (fun _ => 5))
            ((['O', 'n', 'e'].map ((some (fun _ => (12 : ℚ))).getD (fun _ => 5))).sum
              / (2 * (355/113) * |(-(3/5) : ℚ)|))
            ((2400 / 2 : Nat) : ℚ) (((800 / 2 : Nat) : ℚ) + 50)
            (if (-(3/5) : ℚ) < 0 then -1 else 1) ['O', 'n', 'e']
            (-(['O', 'n', 'e'].map ((some (fun _ => (12 : ℚ))).getD (fun _ => 5))).sum / 2)⟩ :=
  ⟨by norm_num, by norm_num, by norm_num,
    C5_arc_placement_amended (fun q => q) (fun q => q) (355/113) (some (fun _ => 12))
      (fun _ => 5) ['O', 'n', 'e'] 2400 800 (-(3/5)) (17, 17, 17, 255)
      (by norm_num) (by norm_num) (by norm_num)⟩

/-- C9 counterexample: when the configured font file does not exist
(`os.path.exists` is false, one way for the font resource to be
unloadable), `render_title_with_libre_bodoni` returns
`{'dark': None, 'light': None}` and produces no rasters at all — it does
not fall back and produce its two outputs as the claim states. -/
theorem C9_missing_font_counterexample :
    render_title_with_libre_bodoni (fun _ => none) (fun q => q) (fun q => q) (355/113)
      (fun _ => 1) "Cavallo Spettrale" "cavallo-spettrale" "artifacts"
      = (⟨none, none⟩, []) := by
  rfl

/-- C9 as amended: when the font file exists, the renderer produces both
title rasters even if loading the file fails (`fontRes = none`, in which
case `draw_curved_text` silently falls back to the built-in default
typeface), provided the title is empty or has nonzero total advance width
under the effective font; when the font file does not exist, the render
bails out with `None` for both outputs and writes nothing (see the
counterexample). -/
theorem C9_font_fallback_amended (fontFs : FontFS) (sinq cosq : ℚ → ℚ) (piq : ℚ)
    (defaultFont : Char → ℚ) (title slug odir : String) (fontRes : Option (Char → ℚ))
    (hex : fontFs LIBRE_BODONI_FONT_regular = some fontRes) (hpi : 0 < piq)
    (htw : title.toList = [] ∨ (title.toList.map (fontRes.getD defaultFont)).sum ≠ 0) :
    ∃ imgD imgL,
      render_title_with_libre_bodoni fontFs sinq cosq piq defaultFont title slug odir
        = (⟨some (pathJoin odir (slug ++ "_title_dark.png")),
            some (pathJoin odir (slug ++ "_title_light.png"))⟩,
           [(pathJoin odir (slug ++ "_title_dark.png"), imgD),
            (pathJoin odir (slug ++ "_title_light.png"), imgL)])
        ∧ imgD.color = dark_text_color ∧ imgL.color = light_text_color := by
  have hD := draw_curved_text_eq_ok sinq cosq piq fontRes defaultFont title.toList
    (2400, 800) LIBRE_BODONI_FONT_curve dark_text_color hpi htw
  have hL := draw_curved_text_eq_ok sinq cosq piq fontRes defaultFont title.toList
    (2400, 800) LIBRE_BODONI_FONT_curve light_text_color hpi htw
  refine ⟨⟨2400, 800, dark_text_color,
      spec_char_placements sinq cosq piq (fontRes.getD defaultFont)
        ((title.toList.map (fontRes.getD defaultFont)).sum
          / curveDenominator piq LIBRE_BODONI_FONT_curve)
        ((2400 / 2 : Nat) : ℚ) (((800 / 2 : Nat) : ℚ) + 50)
        (if LIBRE_BODONI_FONT_curve < 0 then -1 else 1) title.toList
        (-(title.toList.map (fontRes.getD defaultFont)).sum / 2)⟩,
    ⟨2400, 800, light_text_color,
      spec_char_placements sinq cosq piq (fontRes.getD defaultFont)
        ((title.toList.map (fontRes.getD defaultFont)).sum
          / curveDenominator piq LIBRE_BODONI_FONT_curve)
        ((2400 / 2 : Nat) : ℚ) (((800 / 2 : Nat) : ℚ) + 50)
        (if LIBRE_BODONI_FONT_curve < 0 then -1 else 1) title.toList
        (-(title.toList.map (fontRes.getD defaultFont)).sum / 2)⟩, ?_, rfl, rfl⟩
  simp only [render_title_with_libre_bodoni, hex, hD, hL]

/-- Witness for the amended C9: the font file exists but is unloadable
(`some none`), so the default typeface of width 10 is used; on the
two-character title "Ab" both rasters are produced. -/
theorem C9_font_fallback_amended_witness :
    ((fun p => if p = LIBRE_BODONI_FONT_regular
        then some (none : Option (Char → ℚ)) else none) LIBRE_BODONI_FONT_regular
      = some (none : Option (Char → ℚ)))
    ∧ (0 : ℚ) < 355/113
    ∧ ((String.toList "Ab" = [] ∨
        ((String.toList "Ab").map ((none : Option (Char → ℚ)).getD (fun _ => 10))).sum ≠ 0))
    ∧ ∃ imgD imgL,
      render_title_with_libre_bodoni
          (fun p => if p = LIBRE_BODONI_FONT_regular
            then some (none : Option (Char → ℚ)) else none)
          (fun q => q) (fun q => q) (355/113) (fun _ => 10) "Ab" "ab" "artifacts"
        = (⟨some (pathJoin "artifacts" ("ab" ++ "_title_dark.png")),
            some (pathJoin "artifacts" ("ab" ++ "_title_light.png"))⟩,
           [(pathJoin "artifacts" ("ab" ++ "_title_dark.png"), imgD),
            (pathJoin "artifacts" ("ab" ++ "_title_light.png"), imgL)])
        ∧ imgD.color = dark_text_color ∧ imgL.color = light_text_color :=
  ⟨rfl, by norm_num,
    Or.inr (by rw [show String.toList "Ab" = ['A', 'b'] from rfl]; norm_num),
    C9_font_fallback_amended
      (fun p => if p = LIBRE_BODONI_FONT_regular
        then some (none : Option (Char → ℚ)) else none)
      (fun q => q) (fun q => q) (355/113) (fun _ => 10) "Ab" "ab" "artifacts" none
      rfl (by norm_num)
      (Or.inr (by rw [show String.toList "Ab" = ['A', 'b'] from rfl]; norm_num))⟩

end NewPrintful
